import Mathlib

/-!
Shallow embedding of the tls-async crate.

Modelled pieces, each translated from the Rust source:
* the suspension-context bridge `AllowStd` (src/lib.rs), whose raw
  `*mut ()` context pointer is modelled as `Option Nat` (`none` = null);
* the established stream `TlsStream` and its poll operations (src/lib.rs);
* the handshake driver `PendingTlsStream` (src/pending.rs) together with the
  crate error type (src/errors.rs);
* the handshake driver `MidHandshake` (src/lib.rs).

External collaborators — the asynchronous transport and the synchronous
native TLS engine — are modelled as oracle functions passed as parameters.
A Rust panic (a failed assert or a failed expect) is modelled as the `none`
value of an `Option` result.
-/

namespace TlsAsync

/-- Models std io ErrorKind, reduced to the one distinction the code tests
for: WouldBlock versus every other kind (carried as an opaque code). -/
inductive ErrorKind : Type where
  | wouldBlock : ErrorKind
  | other : Nat → ErrorKind
deriving DecidableEq

/-- Models std io Error: a kind together with an opaque payload, so that
"forwarded unchanged" is expressible as equality of values. -/
structure IOError : Type where
  kind : ErrorKind
  payload : Nat
deriving DecidableEq

/-- Models std task Poll. -/
inductive Poll (α : Type) : Type where
  | ready : α → Poll α
  | pending : Poll α
deriving DecidableEq

/-- Models AllowStd of src/lib.rs: the suspension-context bridge. `inner` is
the transport; `context` models the raw pointer field (`none` is null). -/
structure AllowStd (σ : Type) : Type where
  inner : σ
  context : Option Nat
deriving DecidableEq

/-- Models AllowStd::with_context (src/lib.rs lines 93-103): assert the
stored context pointer is non-null, then run `f` under it. A `none` result
models the failed assert (a panic). -/
def AllowStd.with_context {σ ρ : Type} (s : AllowStd σ) (f : Nat → σ → ρ) : Option ρ :=
  match s.context with
  | none => none
  | some ctx => some (f ctx s.inner)

/-- Models the Read impl for AllowStd (src/lib.rs lines 105-115). The
transport's asynchronous read is the oracle `pollRead` taking the context and
the transport; a Pending transport becomes a WouldBlock io error, a Ready
transport result is returned as is. -/
def AllowStd.read {σ : Type} (s : AllowStd σ)
    (pollRead : Nat → σ → Poll (Except IOError Nat)) : Option (Except IOError Nat) :=
  s.with_context fun ctx stream =>
    match pollRead ctx stream with
    | .ready r => r
    | .pending => .error ⟨.wouldBlock, 0⟩

/-- Models the write half of the Write impl for AllowStd (src/lib.rs lines
121-126). -/
def AllowStd.write {σ : Type} (s : AllowStd σ)
    (pollWrite : Nat → σ → Poll (Except IOError Nat)) : Option (Except IOError Nat) :=
  s.with_context fun ctx stream =>
    match pollWrite ctx stream with
    | .ready r => r
    | .pending => .error ⟨.wouldBlock, 0⟩

/-- Models the flush half of the Write impl for AllowStd (src/lib.rs lines
128-133). -/
def AllowStd.flush {σ : Type} (s : AllowStd σ)
    (pollFlush : Nat → σ → Poll (Except IOError Unit)) : Option (Except IOError Unit) :=
  s.with_context fun ctx stream =>
    match pollFlush ctx stream with
    | .ready r => r
    | .pending => .error ⟨.wouldBlock, 0⟩

/-- Models cvt (src/lib.rs lines 136-142): a WouldBlock error becomes
Pending, anything else is Ready with the untouched result. -/
def cvt {α : Type} (r : Except IOError α) : Poll (Except IOError α) :=
  match r with
  | .ok v => .ready (.ok v)
  | .error e => if e.kind = ErrorKind.wouldBlock then .pending else .ready (.error e)

/-- Models TlsStream of src/lib.rs: the established stream. The engine's
internal state lives behind the engine oracles; what the crate itself touches
is the AllowStd bridge reachable through get_ref and get_mut, kept here as
the field `raw`. -/
structure TlsStream (σ : Type) : Type where
  raw : AllowStd σ
deriving DecidableEq

/-- The bridge as TlsStream::with_context hands it to the engine closure:
the stored bridge with its context pointer set to the current poll context
(src/lib.rs line 150). -/
def TlsStream.armedBridge {σ : Type} (s : TlsStream σ) (ctx : Nat) : AllowStd σ :=
  { s.raw with context := some ctx }

/-- Models TlsStream::with_context (src/lib.rs lines 145-153): store the
poll context into the bridge, run the engine closure `f` (state-passing for
the mutable borrow), and on exit the Guard drop (src/lib.rs lines 76-83)
nulls the context again. -/
def TlsStream.with_context {σ ρ : Type} (s : TlsStream σ) (ctx : Nat)
    (f : AllowStd σ → ρ × AllowStd σ) : ρ × TlsStream σ :=
  let out := f (s.armedBridge ctx)
  (out.1, ⟨{ out.2 with context := none }⟩)

/-- Models TlsStream::get_ref (src/lib.rs lines 156-161). -/
def TlsStream.get_ref {σ : Type} (s : TlsStream σ) : σ :=
  s.raw.inner

/-- Models TlsStream::get_mut (src/lib.rs lines 164-169): the borrow target
together with the stream state after the call (the body performs no write,
so the state is returned as received). -/
def TlsStream.get_mut {σ : Type} (s : TlsStream σ) : σ × TlsStream σ :=
  (s.raw.inner, s)

/-- Models TlsStream poll_read (src/lib.rs lines 180-186): run the engine's
synchronous read (the oracle `engineRead`) under with_context and pipe the
result through cvt. -/
def TlsStream.poll_read {σ : Type} (s : TlsStream σ) (ctx : Nat)
    (engineRead : AllowStd σ → Except IOError Nat × AllowStd σ) :
    Poll (Except IOError Nat) × TlsStream σ :=
  s.with_context ctx fun a =>
    let r := engineRead a
    (cvt r.1, r.2)

/-- Models TlsStream poll_write (src/lib.rs lines 193-199). -/
def TlsStream.poll_write {σ : Type} (s : TlsStream σ) (ctx : Nat)
    (engineWrite : AllowStd σ → Except IOError Nat × AllowStd σ) :
    Poll (Except IOError Nat) × TlsStream σ :=
  s.with_context ctx fun a =>
    let r := engineWrite a
    (cvt r.1, r.2)

/-- Models TlsStream poll_flush (src/lib.rs lines 201-203). -/
def TlsStream.poll_flush {σ : Type} (s : TlsStream σ) (ctx : Nat)
    (engineFlush : AllowStd σ → Except IOError Unit × AllowStd σ) :
    Poll (Except IOError Unit) × TlsStream σ :=
  s.with_context ctx fun a =>
    let r := engineFlush a
    (cvt r.1, r.2)

/-- Models TlsStream poll_close (src/lib.rs lines 205-211): run the engine's
shutdown under with_context, then map Ok to Ready, a WouldBlock error to
Pending, and any other error to Ready with that error. -/
def TlsStream.poll_close {σ : Type} (s : TlsStream σ) (ctx : Nat)
    (shutdown : AllowStd σ → Except IOError Unit × AllowStd σ) :
    Poll (Except IOError Unit) × TlsStream σ :=
  let out := s.with_context ctx shutdown
  (match out.1 with
    | .ok _ => .ready (.ok ())
    | .error e => if e.kind = ErrorKind.wouldBlock then .pending else .ready (.error e),
   out.2)

/-- Models the result type of a native-tls handshake call (NativeHandshake
in src/pending.rs line 31): a completed engine stream, a would-block
continuation, or a hard failure. `κ` is the MidHandshakeTlsStream
continuation, `ε` the native-tls error, `τ` the completed engine stream. -/
inductive NativeHandshake (κ ε τ : Type) : Type where
  | ok : τ → NativeHandshake κ ε τ
  | wouldBlock : κ → NativeHandshake κ ε τ
  | failure : ε → NativeHandshake κ ε τ
deriving DecidableEq

/-- Models the crate error type (src/errors.rs). -/
inductive Error (ε : Type) : Type where
  | acceptor : ε → Error ε
  | connector : ε → Error ε
  | handshake : ε → Error ε
  | native : ε → Error ε
  | repeatedHandshake : Error ε
deriving DecidableEq

/-- Models Handshake of src/pending.rs lines 15-19: the driver state. -/
inductive Handshake (κ ε τ : Type) : Type where
  | error : Error ε → Handshake κ ε τ
  | midhandshake : κ → Handshake κ ε τ
  | completed : τ → Handshake κ ε τ
deriving DecidableEq

/-- Models Handshake::was_pending (src/pending.rs lines 22-28). -/
def Handshake.was_pending {κ ε τ : Type} : Handshake κ ε τ → Bool
  | .midhandshake _ => true
  | _ => false

/-- Models the From impl NativeHandshake → Handshake (src/pending.rs lines
33-41). -/
def Handshake.ofNative {κ ε τ : Type} : NativeHandshake κ ε τ → Handshake κ ε τ
  | .ok nativeStream => .completed nativeStream
  | .failure e => .error (.handshake e)
  | .wouldBlock midhandshakeStream => .midhandshake midhandshakeStream

/-- Models PendingTlsStream of src/pending.rs lines 43-45: the handshake
driver future returned by TlsConnector::connect and TlsAcceptor::accept. -/
structure PendingTlsStream (κ ε τ : Type) : Type where
  inner : Handshake κ ε τ
deriving DecidableEq

/-- Models PendingTlsStream::new (src/pending.rs lines 48-52). -/
def PendingTlsStream.new {κ ε τ : Type} (inner : NativeHandshake κ ε τ) :
    PendingTlsStream κ ε τ :=
  ⟨Handshake.ofNative inner⟩

/-- The loop body of PendingTlsStream poll (src/pending.rs lines 64-82),
written with explicit fuel; `none` means the fuel ran out before the loop
returned. `step` is the engine oracle MidHandshakeTlsStream::handshake.
Each iteration replaces the stored state with Error RepeatedHandshake and
matches on the previous state, exactly as the mem::replace at line 65 does.
The last component of the result counts the `step` invocations made during
the invocation (ghost instrumentation; it does not influence the result). -/
def PendingTlsStream.pollLoop {κ ε τ : Type} (step : κ → NativeHandshake κ ε τ) :
    Nat → Handshake κ ε τ → Nat →
    Option (Handshake κ ε τ × Poll (Except (Error ε) τ) × Nat)
  | 0, _, _ => none
  | fuel + 1, st, calls =>
    match st with
    | .error e => some (.error .repeatedHandshake, .ready (.error e), calls)
    | .midhandshake midhandshakeStream =>
      let res := Handshake.ofNative (step midhandshakeStream)
      if res.was_pending then
        some (res, .pending, calls + 1)
      else
        PendingTlsStream.pollLoop step fuel res (calls + 1)
    | .completed nativeStream =>
      some (.error .repeatedHandshake, .ready (.ok nativeStream), calls)

/-- Models one invocation of PendingTlsStream poll (src/pending.rs lines
63-83). Fuel 2 is enough for the loop (proved below), so the poll is run
with fuel 2. Returns the driver after the poll, the poll result (the Ok
payload is the engine stream wrapped into the crate TlsStream at line 79),
and the ghost count of engine handshake calls made. -/
def PendingTlsStream.poll {κ ε τ : Type} (step : κ → NativeHandshake κ ε τ)
    (s : PendingTlsStream κ ε τ) :
    Option (PendingTlsStream κ ε τ × Poll (Except (Error ε) τ) × Nat) :=
  (PendingTlsStream.pollLoop step 2 s.inner 0).map fun out => (⟨out.1⟩, out.2)

/-- The driver state after one poll; the fallback branch is unreachable
because fuel 2 always suffices (proved below). -/
def PendingTlsStream.next {κ ε τ : Type} (step : κ → NativeHandshake κ ε τ)
    (s : PendingTlsStream κ ε τ) : PendingTlsStream κ ε τ :=
  match PendingTlsStream.poll step s with
  | some out => out.1
  | none => s

/-- Models MidHandshakeTlsStream as stored by MidHandshake in src/lib.rs:
the continuation proper plus the context pointer of the AllowStd bridge
buried inside it (the pointer the code sets at line 492 and nulls at line
497). -/
structure MidState (κ : Type) : Type where
  context : Option Nat
  inner : κ
deriving DecidableEq

/-- Models the completed native-tls stream returned on the Ok path of
MidHandshake poll, again with the context pointer of its inner bridge. -/
structure EngineOut (τ : Type) : Type where
  context : Option Nat
  inner : τ
deriving DecidableEq

/-- Models MidHandshake of src/lib.rs line 59: an Option of the in-progress
engine stream; `none` after the future already produced its result. -/
structure MidHandshake (κ : Type) : Type where
  state : Option (MidState κ)
deriving DecidableEq

/-- Models MidHandshake poll (src/lib.rs lines 488-502). `step` is the
engine oracle; the context pointer travels with the engine objects: line 492
sets it to the poll context before the handshake call, the WouldBlock arm
nulls it at line 497 before storing the continuation back, while the Ok arm
returns the stream with the pointer as the call left it. A `none` result
models the failed expect at line 490 (a panic): the future was polled after
completion. The last component of the result counts the `step` invocations
made during the invocation (ghost instrumentation). -/
def MidHandshake.poll {κ ε τ : Type} (step : κ → NativeHandshake κ ε τ)
    (cx : Nat) (m : MidHandshake κ) :
    Option (MidHandshake κ × Poll (Except ε (EngineOut τ)) × Nat) :=
  match m.state with
  | none => none
  | some s =>
    let contextDuringCall : Option Nat := some cx
    match step s.inner with
    | .ok stream => some (⟨none⟩, .ready (.ok ⟨contextDuringCall, stream⟩), 1)
    | .failure e => some (⟨none⟩, .ready (.error e), 1)
    | .wouldBlock s2 => some (⟨some ⟨none, s2⟩⟩, .pending, 1)

/-! ## Helper lemmas -/

/-- Polling from a stored Error state: the loop returns at once with that
error, stores the RepeatedHandshake sentinel, and makes no engine call. -/
theorem pollLoop_error {κ ε τ : Type} (step : κ → NativeHandshake κ ε τ)
    (k c : Nat) (e : Error ε) :
    PendingTlsStream.pollLoop step (k + 1) (Handshake.error e) c
      = some (.error .repeatedHandshake, .ready (.error e), c) := rfl

/-- Polling from a stored Completed state: the loop returns at once with the
engine stream, stores the RepeatedHandshake sentinel, and makes no engine
call. -/
theorem pollLoop_completed {κ ε τ : Type} (step : κ → NativeHandshake κ ε τ)
    (k c : Nat) (t : τ) :
    PendingTlsStream.pollLoop step (k + 1) (Handshake.completed t) c
      = some (.error .repeatedHandshake, .ready (.ok t), c) := rfl

/-- PendingTlsStream poll from an Error state. -/
theorem poll_error {κ ε τ : Type} (step : κ → NativeHandshake κ ε τ) (e : Error ε) :
    PendingTlsStream.poll step ⟨Handshake.error e⟩
      = some (⟨.error .repeatedHandshake⟩, .ready (.error e), 0) := rfl

/-- PendingTlsStream poll from a Completed state. -/
theorem poll_completed {κ ε τ : Type} (step : κ → NativeHandshake κ ε τ) (t : τ) :
    PendingTlsStream.poll step ⟨Handshake.completed t⟩
      = some (⟨.error .repeatedHandshake⟩, .ready (.ok t), 0) := rfl

/-- PendingTlsStream poll from a Midhandshake state, as a case split on the
single engine handshake call it makes. -/
theorem poll_midhandshake {κ ε τ : Type} (step : κ → NativeHandshake κ ε τ) (m : κ) :
    PendingTlsStream.poll step ⟨Handshake.midhandshake m⟩
      = match step m with
        | .ok t => some (⟨.error .repeatedHandshake⟩, .ready (.ok t), 1)
        | .wouldBlock m2 => some (⟨.midhandshake m2⟩, .pending, 1)
        | .failure e => some (⟨.error .repeatedHandshake⟩, .ready (.error (.handshake e)), 1) := by
  cases h : step m <;>
    simp [PendingTlsStream.poll, PendingTlsStream.pollLoop, Handshake.ofNative,
      Handshake.was_pending, h]

/-- The state after polling an Error state is always the RepeatedHandshake
sentinel. -/
theorem next_error {κ ε τ : Type} (step : κ → NativeHandshake κ ε τ) (e : Error ε) :
    PendingTlsStream.next step ⟨Handshake.error e⟩
      = ⟨Handshake.error Error.repeatedHandshake⟩ := rfl

/-- Every poll that returns Ready leaves the RepeatedHandshake sentinel as
the stored driver state. -/
theorem poll_ready_state {κ ε τ : Type} {step : κ → NativeHandshake κ ε τ}
    {s s2 : PendingTlsStream κ ε τ} {out : Except (Error ε) τ} {n : Nat}
    (h : PendingTlsStream.poll step s = some (s2, Poll.ready out, n)) :
    s2 = ⟨Handshake.error Error.repeatedHandshake⟩ := by
  rcases s with ⟨e | m | t⟩
  · rw [poll_error] at h
    exact (Prod.mk.injEq _ _ _ _ ▸ Option.some.inj h).1.symm
  · rw [poll_midhandshake] at h
    cases hs : step m <;> rw [hs] at h
    · exact (Prod.mk.injEq _ _ _ _ ▸ Option.some.inj h).1.symm
    · simp at h
    · exact (Prod.mk.injEq _ _ _ _ ▸ Option.some.inj h).1.symm
  · rw [poll_completed] at h
    exact (Prod.mk.injEq _ _ _ _ ▸ Option.some.inj h).1.symm

/-- The TlsStream with_context wrapper nulls the bridge context on every
return path: this is the Guard drop of src/lib.rs lines 76-83. -/
theorem with_context_clears_context {σ ρ : Type} (s : TlsStream σ) (ctx : Nat)
    (f : AllowStd σ → ρ × AllowStd σ) :
    ((TlsStream.with_context s ctx f).2).raw.context = none := rfl

/-- The poll half of poll_read is cvt applied to the engine's synchronous
read on the armed bridge. -/
theorem poll_read_fst {σ : Type} (s : TlsStream σ) (ctx : Nat)
    (engineRead : AllowStd σ → Except IOError Nat × AllowStd σ) :
    (TlsStream.poll_read s ctx engineRead).1
      = cvt (engineRead (s.armedBridge ctx)).1 := rfl

/-- The poll half of poll_write is cvt applied to the engine's synchronous
write on the armed bridge. -/
theorem poll_write_fst {σ : Type} (s : TlsStream σ) (ctx : Nat)
    (engineWrite : AllowStd σ → Except IOError Nat × AllowStd σ) :
    (TlsStream.poll_write s ctx engineWrite).1
      = cvt (engineWrite (s.armedBridge ctx)).1 := rfl

/-- The poll half of poll_flush is cvt applied to the engine's synchronous
flush on the armed bridge. -/
theorem poll_flush_fst {σ : Type} (s : TlsStream σ) (ctx : Nat)
    (engineFlush : AllowStd σ → Except IOError Unit × AllowStd σ) :
    (TlsStream.poll_flush s ctx engineFlush).1
      = cvt (engineFlush (s.armedBridge ctx)).1 := rfl

/-- cvt maps an Ok result to Ready Ok. -/
theorem cvt_ok {α : Type} (v : α) : cvt (.ok v) = .ready (.ok v) := rfl

/-- cvt maps a WouldBlock error to Pending. -/
theorem cvt_wouldblock {α : Type} (e : IOError) (h : e.kind = .wouldBlock) :
    cvt (α := α) (.error e) = .pending := by
  simp [cvt, h]

/-- cvt keeps every non-WouldBlock error unchanged under Ready. -/
theorem cvt_other {α : Type} (e : IOError) (h : e.kind ≠ .wouldBlock) :
    cvt (α := α) (.error e) = .ready (.error e) := by
  simp [cvt, h]

/-- Conversely, if cvt yields Ready with an error then the input was exactly
that error and its kind is not WouldBlock. -/
theorem cvt_ready_error {α : Type} (r : Except IOError α) (e : IOError)
    (h : cvt r = .ready (.error e)) : r = .error e ∧ e.kind ≠ .wouldBlock := by
  cases r with
  | ok v => simp [cvt] at h
  | error e2 =>
    by_cases hk : e2.kind = ErrorKind.wouldBlock
    · rw [cvt_wouldblock e2 hk] at h
      simp at h
    · rw [cvt_other e2 hk] at h
      simp only [Poll.ready.injEq, Except.error.injEq] at h
      subst h
      exact ⟨rfl, hk⟩

/-! ## Claim theorems -/

/-- C8: every synchronous call into the bridge made during a TlsStream poll
goes through TlsStream::with_context, which first arms the bridge with the
current poll context; on the armed bridge the non-null-context assertion of
AllowStd::with_context can never fire (the call always returns `some`, never
the panic marker `none`). -/
theorem c8_bridge_called_with_context {σ ρ : Type} (s : TlsStream σ) (ctx : Nat)
    (g : Nat → σ → ρ) (f : AllowStd σ → ρ × AllowStd σ) :
    (s.armedBridge ctx).context = some ctx ∧
    AllowStd.with_context (s.armedBridge ctx) g = some (g ctx s.raw.inner) ∧
    TlsStream.with_context s ctx f
      = ((f (s.armedBridge ctx)).1, ⟨{ (f (s.armedBridge ctx)).2 with context := none }⟩) :=
  ⟨rfl, rfl, rfl⟩

/-- C9: get_ref and get_mut merely project the transport out of the bridge;
they change nothing — in particular the stream state after get_mut is the
one passed in, with the same context pointer and the same transport. -/
theorem c9_accessors_pure {σ : Type} (s : TlsStream σ) :
    TlsStream.get_ref s = s.raw.inner ∧
    TlsStream.get_mut s = (s.raw.inner, s) ∧
    (TlsStream.get_mut s).2.raw.context = s.raw.context ∧
    (TlsStream.get_mut s).2.raw.inner = s.raw.inner :=
  ⟨rfl, rfl, rfl, rfl⟩

/-- C4: with a context attached, the bridge read/write/flush return the
engine's WouldBlock error exactly when the transport reports Pending, and
return the transport's Ready result (byte count or error) unchanged
otherwise. -/
theorem c4_bridge_wouldblock_mapping {σ : Type} (s : AllowStd σ) (c : Nat)
    (tr tw : Nat → σ → Poll (Except IOError Nat))
    (tf : Nat → σ → Poll (Except IOError Unit))
    (h : s.context = some c) :
    (tr c s.inner = .pending → AllowStd.read s tr = some (.error ⟨.wouldBlock, 0⟩)) ∧
    (∀ r, tr c s.inner = .ready r → AllowStd.read s tr = some r) ∧
    (tw c s.inner = .pending → AllowStd.write s tw = some (.error ⟨.wouldBlock, 0⟩)) ∧
    (∀ r, tw c s.inner = .ready r → AllowStd.write s tw = some r) ∧
    (tf c s.inner = .pending → AllowStd.flush s tf = some (.error ⟨.wouldBlock, 0⟩)) ∧
    (∀ r, tf c s.inner = .ready r → AllowStd.flush s tf = some r) := by
  refine ⟨?_, ?_, ?_, ?_, ?_, ?_⟩ <;>
    first
      | (intro hp
         simp [AllowStd.read, AllowStd.write, AllowStd.flush, AllowStd.with_context, h, hp])
      | (intro r hp
         simp [AllowStd.read, AllowStd.write, AllowStd.flush, AllowStd.with_context, h, hp])

/-- C4 witness: the mapping evaluated on a concrete bridge, a pending
transport read, a ready write of five bytes, and a ready flush error. -/
theorem c4_witness :
    AllowStd.read (σ := Nat) ⟨9, some 2⟩ (fun _ _ => .pending)
      = some (.error ⟨.wouldBlock, 0⟩) ∧
    AllowStd.write (σ := Nat) ⟨9, some 2⟩ (fun _ _ => .ready (.ok 5))
      = some (.ok 5) ∧
    AllowStd.flush (σ := Nat) ⟨9, some 2⟩ (fun _ _ => .ready (.error ⟨.other 3, 1⟩))
      = some (.error ⟨.other 3, 1⟩) := by
  have t := c4_bridge_wouldblock_mapping (σ := Nat) ⟨9, some 2⟩ 2
    (fun _ _ => .pending) (fun _ _ => .ready (.ok 5))
    (fun _ _ => .ready (.error ⟨.other 3, 1⟩)) rfl
  exact ⟨t.1 rfl, t.2.2.2.1 _ rfl, t.2.2.2.2.2 _ rfl⟩

/-- C5: polling the driver in the Midhandshake (InProgress) state maps the
single engine handshake outcome exactly as the spec says: success gives
Ready with the completed stream, would-block stores the continuation and
gives Pending, hard failure gives Ready with the handshake error; and the
From conversion classifies the native result the same way. -/
theorem c5_inprogress_transitions {κ ε τ : Type} (step : κ → NativeHandshake κ ε τ)
    (m : κ) :
    (∀ t, step m = .ok t → PendingTlsStream.poll step ⟨.midhandshake m⟩
        = some (⟨.error .repeatedHandshake⟩, .ready (.ok t), 1)) ∧
    (∀ m2, step m = .wouldBlock m2 → PendingTlsStream.poll step ⟨.midhandshake m⟩
        = some (⟨.midhandshake m2⟩, .pending, 1)) ∧
    (∀ e, step m = .failure e → PendingTlsStream.poll step ⟨.midhandshake m⟩
        = some (⟨.error .repeatedHandshake⟩, .ready (.error (.handshake e)), 1)) ∧
    (∀ t : τ, Handshake.ofNative (κ := κ) (ε := ε) (.ok t) = .completed t) ∧
    (∀ m2 : κ, Handshake.ofNative (ε := ε) (τ := τ) (.wouldBlock m2) = .midhandshake m2) ∧
    (∀ e : ε, Handshake.ofNative (κ := κ) (τ := τ) (.failure e)
        = .error (.handshake e)) := by
  refine ⟨?_, ?_, ?_, fun _ => rfl, fun _ => rfl, fun _ => rfl⟩ <;>
    (intro x hx; rw [poll_midhandshake, hx])

/-- C5 witness: the three transitions evaluated with concrete engines. -/
theorem c5_witness :
    PendingTlsStream.poll (κ := Nat) (ε := Nat) (τ := Nat) (fun _ => .ok 42)
        ⟨.midhandshake 3⟩
      = some (⟨.error .repeatedHandshake⟩, .ready (.ok 42), 1) ∧
    PendingTlsStream.poll (κ := Nat) (ε := Nat) (τ := Nat) (fun m => .wouldBlock (m + 1))
        ⟨.midhandshake 3⟩
      = some (⟨.midhandshake 4⟩, .pending, 1) ∧
    PendingTlsStream.poll (κ := Nat) (ε := Nat) (τ := Nat) (fun _ => .failure 7)
        ⟨.midhandshake 3⟩
      = some (⟨.error .repeatedHandshake⟩, .ready (.error (.handshake 7)), 1) :=
  ⟨(c5_inprogress_transitions (fun _ => .ok 42) 3).1 42 rfl,
   (c5_inprogress_transitions (fun m => .wouldBlock (m + 1)) 3).2.1 4 rfl,
   (c5_inprogress_transitions (fun _ => .failure 7) 3).2.2.1 7 rfl⟩

/-- C6: for read, write, flush and close on the established stream, an
engine result whose error kind is WouldBlock becomes Pending and is never
delivered to the caller as an error, while every other error is delivered
unchanged: whenever a poll returns Ready with an error, that error is
exactly the engine's and its kind is not WouldBlock. -/
theorem c6_error_propagation {σ : Type} (s : TlsStream σ) (ctx : Nat)
    (engineRead engineWrite : AllowStd σ → Except IOError Nat × AllowStd σ)
    (engineFlush shutdown : AllowStd σ → Except IOError Unit × AllowStd σ) :
    (∀ v, (engineRead (s.armedBridge ctx)).1 = .ok v →
        (s.poll_read ctx engineRead).1 = .ready (.ok v)) ∧
    (∀ e, (engineRead (s.armedBridge ctx)).1 = .error e → e.kind = .wouldBlock →
        (s.poll_read ctx engineRead).1 = .pending) ∧
    (∀ e, (engineRead (s.armedBridge ctx)).1 = .error e → e.kind ≠ .wouldBlock →
        (s.poll_read ctx engineRead).1 = .ready (.error e)) ∧
    (∀ e, (s.poll_read ctx engineRead).1 = .ready (.error e) →
        (engineRead (s.armedBridge ctx)).1 = .error e ∧ e.kind ≠ .wouldBlock) ∧
    (∀ e, (s.poll_write ctx engineWrite).1 = .ready (.error e) →
        (engineWrite (s.armedBridge ctx)).1 = .error e ∧ e.kind ≠ .wouldBlock) ∧
    (∀ e, (s.poll_flush ctx engineFlush).1 = .ready (.error e) →
        (engineFlush (s.armedBridge ctx)).1 = .error e ∧ e.kind ≠ .wouldBlock) ∧
    ((shutdown (s.armedBridge ctx)).1 = .ok () →
        (s.poll_close ctx shutdown).1 = .ready (.ok ())) ∧
    (∀ e, (shutdown (s.armedBridge ctx)).1 = .error e → e.kind = .wouldBlock →
        (s.poll_close ctx shutdown).1 = .pending) ∧
    (∀ e, (shutdown (s.armedBridge ctx)).1 = .error e → e.kind ≠ .wouldBlock →
        (s.poll_close ctx shutdown).1 = .ready (.error e)) ∧
    (∀ e, (s.poll_close ctx shutdown).1 = .ready (.error e) →
        (shutdown (s.armedBridge ctx)).1 = .error e ∧ e.kind ≠ .wouldBlock) := by
  refine ⟨?_, ?_, ?_, ?_, ?_, ?_, ?_, ?_, ?_, ?_⟩
  · intro v hv
    rw [poll_read_fst, hv, cvt_ok]
  · intro e he hk
    rw [poll_read_fst, he, cvt_wouldblock e hk]
  · intro e he hk
    rw [poll_read_fst, he, cvt_other e hk]
  · intro e he
    rw [poll_read_fst] at he
    exact cvt_ready_error _ e he
  · intro e he
    rw [poll_write_fst] at he
    exact cvt_ready_error _ e he
  · intro e he
    rw [poll_flush_fst] at he
    exact cvt_ready_error _ e he
  · intro hv
    simp [TlsStream.poll_close, TlsStream.with_context, hv]
  · intro e he hk
    simp [TlsStream.poll_close, TlsStream.with_context, he, hk]
  · intro e he hk
    simp [TlsStream.poll_close, TlsStream.with_context, he, hk]
  · intro e he
    simp only [TlsStream.poll_close, TlsStream.with_context] at he
    cases hv : (shutdown (s.armedBridge ctx)).1 with
    | ok u => rw [hv] at he; simp at he
    | error e2 =>
      rw [hv] at he
      by_cases hk : e2.kind = ErrorKind.wouldBlock
      · simp [hk] at he
      · simp only [hk, if_false] at he
        simp only [Poll.ready.injEq, Except.error.injEq] at he
        subst he
        exact ⟨rfl, hk⟩

/-- C6 witness: a WouldBlock engine read suspends, a permission-denied
shutdown error is delivered unchanged. -/
theorem c6_witness :
    (TlsStream.poll_read (σ := Nat) ⟨⟨9, none⟩⟩ 4
        (fun a => (.error ⟨.wouldBlock, 0⟩, a))).1 = Poll.pending ∧
    (TlsStream.poll_close (σ := Nat) ⟨⟨9, none⟩⟩ 4
        (fun a => (.error ⟨.other 2, 13⟩, a))).1
      = Poll.ready (.error ⟨.other 2, 13⟩) := by
  have t := c6_error_propagation (σ := Nat) ⟨⟨9, none⟩⟩ 4
    (fun a => (.error ⟨.wouldBlock, 0⟩, a)) (fun a => (.ok 0, a))
    (fun a => (.ok (), a)) (fun a => (.error ⟨.other 2, 13⟩, a))
  exact ⟨t.2.1 ⟨.wouldBlock, 0⟩ rfl rfl,
    t.2.2.2.2.2.2.2.2.1 ⟨.other 2, 13⟩ rfl (by simp)⟩

/-- C2: evaluation at the failing input. A MidHandshake poll whose engine
handshake succeeds (state Some, engine returns Ok) hands the completed
stream back with the bridge context still set to the poll context (some 5):
the Ok arm at src/lib.rs line 494 never executes the nulling that the
WouldBlock arm (line 497), the StartedHandshakeFuture arms (lines 254 and
258) and the Guard drop all perform, so this exit path of the poll returns
with a stale, non-cleared context reference. -/
theorem c2_midhandshake_ok_keeps_context :
    MidHandshake.poll (κ := Nat) (ε := Nat) (τ := Nat) (fun m => .ok m) 5
        ⟨some ⟨none, 3⟩⟩
      = some (⟨none⟩, .ready (.ok ⟨some 5, 3⟩), 1) ∧
    (⟨some 5, 3⟩ : EngineOut Nat).context ≠ none := by
  refine ⟨rfl, ?_⟩
  simp

/-- C1 counterexample: the MidHandshake handshake driver, polled again after
it has delivered its terminal result, panics (the failed expect at
src/lib.rs line 490, modelled as `none`) instead of failing with the
distinct RepeatedPoll error value: the first poll, whose engine handshake
succeeds, delivers Ready and leaves the state empty, and the next poll hits
the panic marker. -/
theorem c1_counterexample :
    MidHandshake.poll (κ := Nat) (ε := Nat) (τ := Nat) (fun m => .ok m) 0
        ⟨some ⟨none, 3⟩⟩
      = some (⟨none⟩, .ready (.ok ⟨some 0, 3⟩), 1) ∧
    MidHandshake.poll (κ := Nat) (ε := Nat) (τ := Nat) (fun m => .ok m) 1 ⟨none⟩
      = none :=
  ⟨rfl, rfl⟩

/-- C1 amended: for the PendingTlsStream driver (the future returned by the
connector and acceptor of this crate), once a poll has delivered a terminal
Ready result, every subsequent poll fails with the distinct
Error.repeatedHandshake value, makes no engine handshake call, and returns
no stale data; the MidHandshake driver of src/lib.rs instead panics when
polled after completion. -/
theorem c1_amended_repeated_poll {κ ε τ : Type} (step : κ → NativeHandshake κ ε τ)
    (s s2 : PendingTlsStream κ ε τ) (out : Except (Error ε) τ) (n : Nat)
    (h : PendingTlsStream.poll step s = some (s2, .ready out, n)) :
    s2 = ⟨Handshake.error Error.repeatedHandshake⟩ ∧
    ∀ step2 : κ → NativeHandshake κ ε τ,
      PendingTlsStream.poll step2 s2
        = some (⟨.error .repeatedHandshake⟩, .ready (.error .repeatedHandshake), 0) := by
  have hs := poll_ready_state h
  refine ⟨hs, fun step2 => ?_⟩
  rw [hs]
  exact poll_error step2 _

/-- C1 witness: a failing handshake delivers its terminal result on the
first poll; applying the amended theorem there shows the second poll
returns the RepeatedHandshake error with zero engine calls. -/
theorem c1_witness :
    PendingTlsStream.poll (κ := Nat) (ε := Nat) (τ := Nat) (fun _ => .ok 42)
        ⟨Handshake.error Error.repeatedHandshake⟩
      = some (⟨.error .repeatedHandshake⟩, .ready (.error .repeatedHandshake), 0) :=
  (c1_amended_repeated_poll (fun _ => NativeHandshake.failure 7)
      ⟨Handshake.midhandshake 3⟩ ⟨Handshake.error Error.repeatedHandshake⟩
      (Except.error (Error.handshake 7)) 1 rfl).2
    (fun _ => NativeHandshake.ok 42)

/-- Iterating the driver from the RepeatedHandshake sentinel stays at the
sentinel forever. -/
theorem iterate_next_error {κ ε τ : Type} (step : κ → NativeHandshake κ ε τ) (k : Nat) :
    Nat.iterate (PendingTlsStream.next step) k
        (⟨Handshake.error Error.repeatedHandshake⟩ : PendingTlsStream κ ε τ)
      = ⟨Handshake.error Error.repeatedHandshake⟩ := by
  induction k with
  | zero => rfl
  | succ k ih =>
    rw [Function.iterate_succ_apply, next_error]
    exact ih

/-- C7: the handshake state machine only moves forward. A poll from the
InProgress state either stays InProgress (exactly when the engine reported
would-block) or delivers a terminal result; once any poll has delivered a
terminal Ready result, the stored state is the consumed sentinel and every
reachable sequence of later polls keeps it there: the driver never re-enters
InProgress and never invokes the engine handshake again (zero engine calls
on every later poll). -/
theorem c7_forward_only {κ ε τ : Type} (step : κ → NativeHandshake κ ε τ)
    (s s2 : PendingTlsStream κ ε τ) (out : Except (Error ε) τ) (n : Nat)
    (h : PendingTlsStream.poll step s = some (s2, .ready out, n)) :
    s2.inner = Handshake.error Error.repeatedHandshake ∧
    (∀ (step2 : κ → NativeHandshake κ ε τ) (k : Nat),
      (Nat.iterate (PendingTlsStream.next step2) k s2).inner
        = Handshake.error Error.repeatedHandshake) ∧
    (∀ (step2 : κ → NativeHandshake κ ε τ) (s3 : PendingTlsStream κ ε τ)
        (r : Poll (Except (Error ε) τ)) (n2 : Nat),
      PendingTlsStream.poll step2 s2 = some (s3, r, n2) →
        n2 = 0 ∧ s3.inner.was_pending = false) := by
  have hs := poll_ready_state h
  subst hs
  refine ⟨rfl, ?_, ?_⟩
  · intro step2 k
    rw [iterate_next_error]
  · intro step2 s3 r n2 h2
    rw [poll_error] at h2
    simp only [Option.some.injEq, Prod.mk.injEq] at h2
    obtain ⟨h3, _, h5⟩ := h2
    subst h3
    subst h5
    exact ⟨rfl, rfl⟩

/-- C7 witness: a completing handshake delivers Ready on its first poll;
applying the theorem there, three more polls (under an engine that would
report would-block if it were ever called) leave the driver at the
sentinel. -/
theorem c7_witness :
    (Nat.iterate
        (PendingTlsStream.next (κ := Nat) (ε := Nat) (τ := Nat)
          (fun m => .wouldBlock m)) 3
        ⟨Handshake.error Error.repeatedHandshake⟩).inner
      = Handshake.error Error.repeatedHandshake :=
  (c7_forward_only (fun _ => NativeHandshake.ok 11) ⟨Handshake.midhandshake 2⟩
      ⟨Handshake.error Error.repeatedHandshake⟩ (Except.ok 11) 1 rfl).2.1
    (fun m => NativeHandshake.wouldBlock m) 3

/-- C3 counterexample: a poll of the driver whose stored state is Completed
(a handshake that finished during construction and has not yet been
delivered) returns Ready with the stream while making zero engine handshake
calls, refuting "exactly one synchronous engine call per poll regardless of
the driver's current state". -/
theorem c3_counterexample :
    PendingTlsStream.poll (κ := Nat) (ε := Nat) (τ := Nat) (fun m => .wouldBlock m)
        ⟨Handshake.completed 0⟩
      = some (⟨.error .repeatedHandshake⟩, .ready (.ok 0), 0) ∧
    (0 : Nat) ≠ 1 := by
  refine ⟨rfl, ?_⟩
  omega

/-- C3 amended: each poll makes at most one engine handshake call — exactly
one when the driver state is Midhandshake (InProgress), zero when the state
is already Error or Completed; and the MidHandshake driver of src/lib.rs
makes exactly one engine call when it still holds a stream and none (it
panics) when polled after completion. No internal loop ever makes a second
engine call within one poll. -/
theorem c3_amended_at_most_one_call {κ ε τ : Type} (step : κ → NativeHandshake κ ε τ)
    (s : PendingTlsStream κ ε τ) (m : MidHandshake κ) (cx : Nat) :
    (∃ s2 r n, PendingTlsStream.poll step s = some (s2, r, n) ∧ n ≤ 1 ∧
      (n = 1 ↔ s.inner.was_pending = true)) ∧
    (∀ st, m.state = some st →
      ∃ m2 r, MidHandshake.poll (τ := τ) step cx m = some (m2, r, 1)) ∧
    (m.state = none → MidHandshake.poll (τ := τ) step cx m = none) := by
  refine ⟨?_, ?_, ?_⟩
  · rcases s with ⟨e | m1 | t⟩
    · exact ⟨_, _, 0, poll_error step e, by omega, by simp [Handshake.was_pending]⟩
    · rw [poll_midhandshake]
      cases hs : step m1
      · exact ⟨_, _, 1, rfl, by omega, by simp [Handshake.was_pending]⟩
      · exact ⟨_, _, 1, rfl, by omega, by simp [Handshake.was_pending]⟩
      · exact ⟨_, _, 1, rfl, by omega, by simp [Handshake.was_pending]⟩
    · exact ⟨_, _, 0, poll_completed step t, by omega, by simp [Handshake.was_pending]⟩
  · rcases m with ⟨mo⟩
    intro st hst
    cases mo with
    | none => simp at hst
    | some s0 =>
      obtain rfl := Option.some.inj hst
      cases h2 : step s0.inner with
      | ok t =>
        exact ⟨⟨none⟩, .ready (.ok ⟨some cx, t⟩), by simp [MidHandshake.poll, h2]⟩
      | wouldBlock s2 =>
        exact ⟨⟨some ⟨none, s2⟩⟩, .pending, by simp [MidHandshake.poll, h2]⟩
      | failure e =>
        exact ⟨⟨none⟩, .ready (.error e), by simp [MidHandshake.poll, h2]⟩
  · rcases m with ⟨mo⟩
    intro h0
    simp only at h0
    subst h0
    rfl

/-- C3 witness: the MidHandshake half of the amended claim evaluated
concretely — one engine call while a stream is held, the panic marker after
completion. -/
theorem c3_witness :
    (∃ m2 r, MidHandshake.poll (κ := Nat) (ε := Nat) (τ := Nat) (fun _ => .ok 8) 0
        ⟨some ⟨none, 3⟩⟩ = some (m2, r, 1)) ∧
    MidHandshake.poll (κ := Nat) (ε := Nat) (τ := Nat) (fun _ => .ok 8) 0 ⟨none⟩
      = none :=
  ⟨(c3_amended_at_most_one_call (fun _ => .ok 8) ⟨Handshake.midhandshake 3⟩
      ⟨some ⟨none, 3⟩⟩ 0).2.1 ⟨none, 3⟩ rfl,
   (c3_amended_at_most_one_call (fun _ => .ok 8) ⟨Handshake.midhandshake 3⟩
      ⟨none⟩ 0).2.2 rfl⟩

/-- The poll loop from a Midhandshake state with any fuel of at least two,
as a case split on the single engine call. -/
theorem pollLoop_midhandshake {κ ε τ : Type} (step : κ → NativeHandshake κ ε τ)
    (k c : Nat) (m : κ) :
    PendingTlsStream.pollLoop step (k + 2) (Handshake.midhandshake m) c
      = match step m with
        | .ok t => some (.error .repeatedHandshake, .ready (.ok t), c + 1)
        | .wouldBlock m2 => some (.midhandshake m2, .pending, c + 1)
        | .failure e =>
            some (.error .repeatedHandshake, .ready (.error (.handshake e)), c + 1) := by
  cases hs : step m <;>
    simp [PendingTlsStream.pollLoop, Handshake.ofNative, Handshake.was_pending, hs,
      pollLoop_error, pollLoop_completed]

/-- C10: PendingTlsStream poll always terminates: for every stored state the
loop returns within two iterations (fuel two suffices, and any larger fuel
returns the very same answer), after at most one engine handshake call. -/
theorem c10_poll_terminates {κ ε τ : Type} (step : κ → NativeHandshake κ ε τ)
    (st : Handshake κ ε τ) :
    ∃ out, PendingTlsStream.pollLoop step 2 st 0 = some out ∧ out.2.2 ≤ 1 ∧
      ∀ fuel, 2 ≤ fuel → PendingTlsStream.pollLoop step fuel st 0 = some out := by
  cases st with
  | error e =>
    refine ⟨(.error .repeatedHandshake, .ready (.error e), 0),
      pollLoop_error step 1 0 e, by norm_num, ?_⟩
    intro fuel hf
    obtain ⟨k, rfl⟩ : ∃ k, fuel = k + 1 := ⟨fuel - 1, by omega⟩
    exact pollLoop_error step k 0 e
  | completed t =>
    refine ⟨(.error .repeatedHandshake, .ready (.ok t), 0),
      pollLoop_completed step 1 0 t, by norm_num, ?_⟩
    intro fuel hf
    obtain ⟨k, rfl⟩ : ∃ k, fuel = k + 1 := ⟨fuel - 1, by omega⟩
    exact pollLoop_completed step k 0 t
  | midhandshake m =>
    cases hs : step m with
    | ok t =>
      refine ⟨(.error .repeatedHandshake, .ready (.ok t), 1), ?_, by norm_num, ?_⟩
      · have h0 := pollLoop_midhandshake step 0 0 m
        rw [hs] at h0
        exact h0
      · intro fuel hf
        obtain ⟨k, rfl⟩ : ∃ k, fuel = k + 2 := ⟨fuel - 2, by omega⟩
        have h0 := pollLoop_midhandshake step k 0 m
        rw [hs] at h0
        exact h0
    | wouldBlock m2 =>
      refine ⟨(.midhandshake m2, .pending, 1), ?_, by norm_num, ?_⟩
      · have h0 := pollLoop_midhandshake step 0 0 m
        rw [hs] at h0
        exact h0
      · intro fuel hf
        obtain ⟨k, rfl⟩ : ∃ k, fuel = k + 2 := ⟨fuel - 2, by omega⟩
        have h0 := pollLoop_midhandshake step k 0 m
        rw [hs] at h0
        exact h0
    | failure e =>
      refine ⟨(.error .repeatedHandshake, .ready (.error (.handshake e)), 1),
        ?_, by norm_num, ?_⟩
      · have h0 := pollLoop_midhandshake step 0 0 m
        rw [hs] at h0
        exact h0
      · intro fuel hf
        obtain ⟨k, rfl⟩ : ∃ k, fuel = k + 2 := ⟨fuel - 2, by omega⟩
        have h0 := pollLoop_midhandshake step k 0 m
        rw [hs] at h0
        exact h0

/-- C10 witness: the termination theorem applied at a would-blocking engine,
with the arbitrary-fuel part discharged at fuel five. -/
theorem c10_witness :
    PendingTlsStream.pollLoop (κ := Nat) (ε := Nat) (τ := Nat)
        (fun m => .wouldBlock (m + 1)) 5 (Handshake.midhandshake 0) 0
      = some (.midhandshake 1, .pending, 1) := by
  obtain ⟨out, h1, _, h3⟩ := c10_poll_terminates (κ := Nat) (ε := Nat) (τ := Nat)
    (fun m => .wouldBlock (m + 1)) (Handshake.midhandshake 0)
  have h2 : PendingTlsStream.pollLoop (κ := Nat) (ε := Nat) (τ := Nat)
      (fun m => .wouldBlock (m + 1)) 2 (Handshake.midhandshake 0) 0
      = some (.midhandshake 1, .pending, 1) := rfl
  rw [h1] at h2
  rw [Option.some.inj h2] at h3
  exact h3 5 (by omega)

end TlsAsync
